import Mathlib

/-!
Verification development for the Sandcastle sidecar process supervisor
(`apps/desktop/src-tauri/src/sidecar.rs`).

The supervisor is shallowly embedded as pure Lean functions.  The mutable
shared state behind the two tokio mutexes is made explicit as a `SidecarSt`
value; since `start`, `stop` and `get_port` each hold the `child` lock for
the whole critical section, each operation is modelled as a pure state
transformer.  Environment behaviour that the code observes (resource
lookup, spawn outcome, the child's output events, whether the 10 s
discovery timeout fired first, and the per-attempt health responses) is
passed in as an explicit environment record.
-/

namespace Sidecar

/-- `HEALTH_CHECK_MAX_ATTEMPTS` from sidecar.rs. -/
def HEALTH_CHECK_MAX_ATTEMPTS : Nat := 50

/-- `HEALTH_CHECK_DELAY_MS` from sidecar.rs. -/
def HEALTH_CHECK_DELAY_MS : Nat := 100

/-- `PORT_PARSE_TIMEOUT_MS` from sidecar.rs. -/
def PORT_PARSE_TIMEOUT_MS : Nat := 10000

/-! ### Sentinel-line parsing (the stdout matcher inside `start`) -/

/-- The fixed key the matcher looks for:
`line_str.strip_prefix("SANDCASTLE_SERVER_PORT=")`. -/
def sentinelKey : List Char := "SANDCASTLE_SERVER_PORT=".toList

/-- `hasKey k l` holds when the character list `l` begins with `k`
(the test Rust's strip-and-match performs before dropping the key). -/
def hasKey : List Char → List Char → Bool
  | [], _ => true
  | _ :: _, [] => false
  | k :: ks, c :: cs => k == c && hasKey ks cs

/-- Whitespace trim of the right end only (used to state the spec's
"trailing whitespace" form). -/
def trimRight (l : List Char) : List Char :=
  (l.reverse.dropWhile Char.isWhitespace).reverse

/-- Both-ends whitespace trim, the model of Rust's `str::trim`. -/
def trimChars (l : List Char) : List Char :=
  trimRight (l.dropWhile Char.isWhitespace)

/-- Model of Rust's `str::parse::<u16>()`: an optional leading `'+'`,
then one or more ASCII digits, value at most 65535. -/
def parseU16 (cs : List Char) : Option Nat :=
  let ds := match cs with
            | [] => []
            | c :: rest => if c = '+' then rest else c :: rest
  if ds = [] then none
  else if ds.all Char.isDigit then
    let n := ds.foldl (fun acc c => acc * 10 + (c.toNat - 48)) 0
    if n ≤ 65535 then some n else none
  else none

/-- The pure line matcher from the reader task in `start`: strip the
sentinel key, trim the remainder, parse it as a `u16`. -/
def parseSentinel (line : List Char) : Option Nat :=
  if hasKey sentinelKey line then
    parseU16 (trimChars (line.drop sentinelKey.length))
  else none

/-- Modelled from the spec (§6 sentinel line protocol), for comparison
with the code's matcher: value of a digit string, used by
`specSentinelMatch`. -/
def specDigitsValue (core : List Char) : Option Nat :=
  if core = [] then none
  else if core.all Char.isDigit then
    if core.foldl (fun acc c => acc * 10 + (c.toNat - 48)) 0 ≤ 65535 then
      some (core.foldl (fun acc c => acc * 10 + (c.toNat - 48)) 0)
    else none
  else none

/-- Modelled from the spec (§6): "a line of the exact form
`SANDCASTLE_SERVER_PORT=<port>` where `<port>` is base-10 digits fitting
in 16 bits, optionally surrounded by trailing whitespace".  Written from
the spec's words, to compare against the code's `parseSentinel`. -/
def specSentinelMatch (line : List Char) : Option Nat :=
  if hasKey sentinelKey line then
    specDigitsValue (trimRight (line.drop sentinelKey.length))
  else none

/-! ### The output-reader task and the one-shot port channel -/

/-- Events delivered by `rx.recv()` in the reader task
(`tauri_plugin_shell::process::CommandEvent`). -/
inductive CommandEvent where
  | stdout (line : List Char)
  | stderr (line : List Char)
  | err (msg : String)
  | terminated
  | other

/-- The values the reader task sends through the one-shot channel, in
order.  The boolean tracks whether the sender is still available
(`port_tx_clone.lock().await.take()`); the loop breaks on
`Terminated`. -/
def readerSends : List CommandEvent → Bool → List Nat
  | [], _ => []
  | CommandEvent.stdout line :: rest, avail =>
    match parseSentinel line with
    | some p => if avail then p :: readerSends rest false else readerSends rest avail
    | none => readerSends rest avail
  | CommandEvent.terminated :: _, _ => []
  | _ :: rest, avail => readerSends rest avail

/-- The port the one-shot receiver obtains, if any: a tokio oneshot
delivers at most the first value sent. -/
def discoverPort (events : List CommandEvent) : Option Nat :=
  (readerSends events true).head?

/-- Outcome of `tokio::time::timeout(PORT_PARSE_TIMEOUT_MS, port_rx)`:
`timedOut` records whether the 10 s budget elapsed before the channel
resolved; otherwise the receiver yields the discovered port, or a recv
error when the sender was dropped without a send. -/
def awaitPort (timedOut : Bool) (events : List CommandEvent) : Except String Nat :=
  if timedOut then Except.error "Timeout waiting for server to report port"
  else
    match discoverPort events with
    | some p => Except.ok p
    | none => Except.error "Failed to receive port from server"

/-! ### The health poller `wait_for_ready` -/

/-- Result of a `wait_for_ready` run together with how many GET probes
were issued and how many `HEALTH_CHECK_DELAY_MS` sleeps were performed. -/
structure HealthOutcome where
  result : Except String Unit
  probes : Nat
  sleeps : Nat

/-- The failure message built after the attempt budget is exhausted. -/
def healthBudgetMsg : String :=
  "Server failed to respond to health check within " ++
    toString (HEALTH_CHECK_MAX_ATTEMPTS * HEALTH_CHECK_DELAY_MS) ++ "ms"

/-- The `for attempt in 1..=HEALTH_CHECK_MAX_ATTEMPTS` loop.  `health a`
tells whether the GET on attempt `a` returned a success status; a failing
attempt sleeps `HEALTH_CHECK_DELAY_MS` and retries. -/
def healthLoop (health : Nat → Bool) (attempt : Nat) : Nat → HealthOutcome
  | 0 => ⟨Except.error healthBudgetMsg, 0, 0⟩
  | remaining + 1 =>
    if health attempt then
      ⟨Except.ok (), 1, 0⟩
    else
      let rest := healthLoop health (attempt + 1) remaining
      ⟨rest.result, rest.probes + 1, rest.sleeps + 1⟩

/-- `SidecarState::wait_for_ready`.  `clientErr` models the (practically
infallible) `reqwest::Client::builder().build()` failure; `port` is the
probed port and `health` the per-attempt response oracle for
`http://localhost:port/api/health`. -/
def wait_for_ready (clientErr : Option String) (port : Nat) (health : Nat → Bool) :
    HealthOutcome :=
  match clientErr with
  | some e => ⟨Except.error e, 0, 0⟩
  | none => healthLoop health 1 HEALTH_CHECK_MAX_ATTEMPTS

/-! ### Supervisor state and operations -/

/-- The shared state of `SidecarState`: the two mutex-guarded options.
A child handle is identified by a `Nat` token. -/
structure SidecarSt where
  child : Option Nat
  port : Option Nat

/-- `SidecarState::get_port`. -/
def get_port (st : SidecarSt) : Option Nat := st.port

/-- Environment a single `start` call observes. -/
structure StartEnv where
  resourceDirErr : Option String
  resourcePath : String
  resourceExists : Bool
  sidecarCmdErr : Option String
  pathEncodeOk : Bool
  spawnErr : Option String
  newChild : Nat
  events : List CommandEvent
  portTimedOut : Bool
  clientBuildErr : Option String
  health : Nat → Bool

/-- `SidecarState::start`, with a ghost third component recording whether
the health poll ran and succeeded during this call.  The `child` lock is
held for the whole body, so the call is one atomic state transformation. -/
def startFull (st : SidecarSt) (env : StartEnv) :
    SidecarSt × Except String Nat × Bool :=
  match st.child with
  | some _ =>
    match st.port with
    | some p => (st, Except.ok p, false)
    | none => (st, Except.error "Server running but port unknown", false)
  | none =>
    match env.resourceDirErr with
    | some e => (st, Except.error e, false)
    | none =>
      if env.resourceExists = false then
        (st, Except.error ("Server bundle not found at: " ++ env.resourcePath), false)
      else
        match env.sidecarCmdErr with
        | some e => (st, Except.error ("Failed to create sidecar command: " ++ e), false)
        | none =>
          if env.pathEncodeOk = false then
            (st, Except.error "Invalid resource path encoding", false)
          else
            match env.spawnErr with
            | some e => (st, Except.error ("Failed to spawn sidecar: " ++ e), false)
            | none =>
              let st1 : SidecarSt := { st with child := some env.newChild }
              match awaitPort env.portTimedOut env.events with
              | Except.error e => (st1, Except.error e, false)
              | Except.ok p =>
                let st2 : SidecarSt := { st1 with port := some p }
                match (wait_for_ready env.clientBuildErr p env.health).result with
                | Except.error e => (st2, Except.error e, false)
                | Except.ok _ => (st2, Except.ok p, true)

/-- `SidecarState::start` as the caller sees it: next state and result. -/
def start (st : SidecarSt) (env : StartEnv) : SidecarSt × Except String Nat :=
  ((startFull st env).1, (startFull st env).2.1)

/-- `SidecarState::stop`.  `killErr` is the outcome of `child.kill()`.
The handle is removed with `child_guard.take()` before the kill is
attempted; on kill failure the `?` returns early, before the port is
cleared. -/
def stop (st : SidecarSt) (killErr : Option String) :
    SidecarSt × Except String Unit :=
  match st.child with
  | none => (st, Except.ok ())
  | some _ =>
    let st1 : SidecarSt := { st with child := none }
    match killErr with
    | some e => (st1, Except.error e)
    | none => ({ st1 with port := none }, Except.ok ())

/-! ### Reachable supervisor states (with a health-check history ghost) -/

/-- Supervisor state extended with a ghost flag: has any health check
ever succeeded since the application started. -/
structure GState where
  sc : SidecarSt
  healthOk : Bool

/-- Effect of one `start` call on the extended state. -/
def gStart (g : GState) (env : StartEnv) : GState :=
  ⟨(startFull g.sc env).1, g.healthOk || (startFull g.sc env).2.2⟩

/-- Effect of one `stop` call on the extended state. -/
def gStop (g : GState) (killErr : Option String) : GState :=
  ⟨(stop g.sc killErr).1, g.healthOk⟩

/-- States reachable from the freshly constructed supervisor
(`SidecarState::new`) by any serialized sequence of `start` and `stop`
calls (`get_port` does not mutate). -/
inductive Reachable : GState → Prop where
  | init : Reachable ⟨⟨none, none⟩, false⟩
  | startStep (g : GState) (env : StartEnv) : Reachable g → Reachable (gStart g env)
  | stopStep (g : GState) (killErr : Option String) : Reachable g → Reachable (gStop g killErr)

/-- A concrete environment: the resource is found and the spawn succeeds,
the child announces port 31822 on stdout, and every health probe fails. -/
def envC2 : StartEnv :=
  { resourceDirErr := none
    resourcePath := "res"
    resourceExists := true
    sidecarCmdErr := none
    pathEncodeOk := true
    spawnErr := none
    newChild := 1
    events := [CommandEvent.stdout "SANDCASTLE_SERVER_PORT=31822".toList]
    portTimedOut := false
    clientBuildErr := none
    health := fun _ => false }

/-! ### Helper lemmas -/

theorem isDigit_not_ws (c : Char) (h : c.isDigit = true) : c.isWhitespace = false := by
  cases hw : c.isWhitespace
  · rfl
  · exfalso
    simp [Char.isWhitespace] at hw
    rcases hw with ((h1 | h1) | h1) | h1 <;> subst h1 <;> revert h <;> decide

theorem isDigit_ne_plus (c : Char) (h : c.isDigit = true) : ¬ (c = '+') := by
  rintro rfl; revert h; decide

/-- `start` on a state that already holds a child handle: no state change,
result is the stored port or the running-but-port-unknown error. -/
theorem start_of_running (st : SidecarSt) (env : StartEnv) (c : Nat)
    (h : st.child = some c) :
    start st env = (st, match st.port with
      | some p => Except.ok p
      | none => Except.error "Server running but port unknown") := by
  obtain ⟨ch, po⟩ := st
  change ch = some c at h
  subst h
  cases po <;> rfl

/-- When `start` reaches the spawn step (no child held, resource and spawn
succeed), the new handle is stored and stays stored on every later branch. -/
theorem start_spawned_child (st : SidecarSt) (env : StartEnv)
    (hc : st.child = none)
    (h1 : env.resourceDirErr = none) (h2 : env.resourceExists = true)
    (h3 : env.sidecarCmdErr = none) (h4 : env.pathEncodeOk = true)
    (h5 : env.spawnErr = none) :
    (start st env).1.child = some env.newChild := by
  simp only [start, startFull, hc, h1, h2, h3, h4, h5]
  cases hap : awaitPort env.portTimedOut env.events with
  | error e => simp
  | ok p =>
    cases hwr : (wait_for_ready env.clientBuildErr p env.health).result <;> simp [hwr]

/-- Once the one-shot sender has been taken, nothing more is ever sent. -/
theorem readerSends_no_tx (es : List CommandEvent) : readerSends es false = [] := by
  induction es with
  | nil => rfl
  | cons e rest ih =>
    cases e with
    | stdout line =>
      simp only [readerSends]
      cases parseSentinel line <;> simp [ih]
    | stderr line => simpa [readerSends] using ih
    | err m => simpa [readerSends] using ih
    | terminated => rfl
    | other => simpa [readerSends] using ih

/-- Exhausting the budget: `r` consecutive failing attempts from `a`. -/
theorem healthLoop_all_fail (health : Nat → Bool) :
    ∀ r a, (∀ k, k < r → health (a + k) = false) →
      healthLoop health a r = ⟨Except.error healthBudgetMsg, r, r⟩ := by
  intro r
  induction r with
  | zero => intro a h; rfl
  | succ n ih =>
    intro a h
    have h0 : health a = false := by simpa using h 0 (Nat.succ_pos n)
    have hrest := ih (a + 1) (fun k hk => by
      have := h (k + 1) (by omega)
      simpa [show a + (k + 1) = a + 1 + k by omega] using this)
    simp only [healthLoop, h0, hrest]
    simp

/-- First success at offset `m` from attempt `a`, within the remaining
budget `r`: the loop stops there having made `m + 1` probes and `m` sleeps. -/
theorem healthLoop_first_success (health : Nat → Bool) :
    ∀ m a r, m < r → (∀ k, k < m → health (a + k) = false) →
      health (a + m) = true →
      healthLoop health a r = ⟨Except.ok (), m + 1, m⟩ := by
  intro m
  induction m with
  | zero =>
    intro a r hr hf hs
    obtain ⟨r2, rfl⟩ : ∃ r2, r = r2 + 1 := ⟨r - 1, by omega⟩
    have hs0 : health a = true := by simpa using hs
    simp [healthLoop, hs0]
  | succ n ih =>
    intro a r hr hf hs
    obtain ⟨r2, rfl⟩ : ∃ r2, r = r2 + 1 := ⟨r - 1, by omega⟩
    have h0 : health a = false := by simpa using hf 0 (Nat.succ_pos n)
    have hrest := ih (a + 1) r2 (by omega)
      (fun k hk => by
        have := hf (k + 1) (by omega)
        simpa [show a + (k + 1) = a + 1 + k by omega] using this)
      (by simpa [show a + (n + 1) = a + 1 + n by omega] using hs)
    simp only [healthLoop, h0, hrest]
    simp

/-! ### Claim theorems -/

/-- C1: a `start` call that finds a child handle already stored spawns
nothing (the state is unchanged) and returns the currently stored port,
or the "Server running but port unknown" error when no port is recorded;
serialized repeated `start` calls observe the same resulting port. -/
theorem start_already_running (st : SidecarSt) (env env2 : StartEnv) (c : Nat)
    (h : st.child = some c) :
    (start st env).1 = st ∧
    ((start st env).2 = match st.port with
      | some p => Except.ok p
      | none => Except.error "Server running but port unknown") ∧
    (∀ p, (start st env).2 = Except.ok p →
      (start (start st env).1 env2).2 = Except.ok p) := by
  have he := start_of_running st env c h
  refine ⟨by rw [he], by rw [he], ?_⟩
  intro p hq
  rw [he] at hq ⊢
  cases hp : st.port with
  | none => rw [hp] at hq; exact absurd hq (by simp)
  | some q =>
    rw [hp] at hq
    injection hq with h2
    subst h2
    rw [start_of_running st env2 c h, hp]

/-- Witness for `start_already_running`: a running supervisor holding
port 31822 answers a second `start` with that port and unchanged state. -/
theorem start_already_running_witness :
    (start ⟨some 1, some 31822⟩ envC2).1 = (⟨some 1, some 31822⟩ : SidecarSt) ∧
    (start ⟨some 1, some 31822⟩ envC2).2 = Except.ok 31822 :=
  ⟨(start_already_running ⟨some 1, some 31822⟩ envC2 envC2 1 rfl).1,
   (start_already_running ⟨some 1, some 31822⟩ envC2 envC2 1 rfl).2.1⟩

/-- C3: the reader publishes through the one-shot channel at most once;
the first stdout line whose trimmed remainder after the sentinel key
parses as a `u16` determines the discovered port, later matching lines
are ignored, and a keyed line that fails to parse (such as
`SANDCASTLE_SERVER_PORT=notanumber`) is skipped without ending
discovery. -/
theorem sentinel_published_once (events : List CommandEvent) :
    (readerSends events true).length ≤ 1 ∧
    (∀ line rest p, parseSentinel line = some p →
      discoverPort (CommandEvent.stdout line :: rest) = some p) ∧
    (∀ line rest, parseSentinel line = none →
      discoverPort (CommandEvent.stdout line :: rest) = discoverPort rest) ∧
    parseSentinel "SANDCASTLE_SERVER_PORT=notanumber".toList = none := by
  refine ⟨?_, ?_, ?_, by decide⟩
  · induction events with
    | nil => simp [readerSends]
    | cons e rest ih =>
      cases e with
      | stdout line =>
        simp only [readerSends]
        cases h : parseSentinel line with
        | some p => simp [readerSends_no_tx]
        | none => simpa using ih
      | stderr line => simpa [readerSends] using ih
      | err m => simpa [readerSends] using ih
      | terminated => simp [readerSends]
      | other => simpa [readerSends] using ih
  · intro line rest p h
    simp [discoverPort, readerSends, h]
  · intro line rest h
    simp [discoverPort, readerSends, h]

/-- Witness for `sentinel_published_once`: with a valid line first, a
later valid line does not change the discovered port. -/
theorem sentinel_published_once_witness :
    discoverPort (CommandEvent.stdout "SANDCASTLE_SERVER_PORT=31822".toList ::
      [CommandEvent.stdout "SANDCASTLE_SERVER_PORT=9".toList]) = some 31822 :=
  (sentinel_published_once []).2.1 _ _ 31822 (by decide)

/-- C4: for every port, the health poller returns success immediately on
the first succeeding probe — success on attempt `n` makes `n` probes and
`n - 1` fixed 100 ms sleeps — and after 50 consecutive failures returns
the error carrying the 5000 ms total budget. -/
theorem wait_for_ready_spec (port : Nat) (health : Nat → Bool) (n : Nat)
    (hpos : 1 ≤ n) (hle : n ≤ HEALTH_CHECK_MAX_ATTEMPTS) :
    HEALTH_CHECK_DELAY_MS = 100 ∧
    HEALTH_CHECK_MAX_ATTEMPTS = 50 ∧
    healthBudgetMsg = "Server failed to respond to health check within 5000ms" ∧
    ((∀ k, 1 ≤ k → k < n → health k = false) → health n = true →
      wait_for_ready none port health = ⟨Except.ok (), n, n - 1⟩) ∧
    ((∀ k, 1 ≤ k → k ≤ HEALTH_CHECK_MAX_ATTEMPTS → health k = false) →
      wait_for_ready none port health =
        ⟨Except.error healthBudgetMsg, HEALTH_CHECK_MAX_ATTEMPTS,
          HEALTH_CHECK_MAX_ATTEMPTS⟩) := by
  refine ⟨rfl, rfl, rfl, ?_, ?_⟩
  · intro hf hs
    have := healthLoop_first_success health (n - 1) 1 HEALTH_CHECK_MAX_ATTEMPTS
      (by simp [HEALTH_CHECK_MAX_ATTEMPTS] at hle ⊢; omega)
      (fun k hk => hf (1 + k) (by omega) (by omega))
      (by simpa [show 1 + (n - 1) = n by omega] using hs)
    simpa [wait_for_ready, show n - 1 + 1 = n by omega] using this
  · intro hf
    exact healthLoop_all_fail health HEALTH_CHECK_MAX_ATTEMPTS 1
      (fun k hk => hf (1 + k) (by omega)
        (by simp [HEALTH_CHECK_MAX_ATTEMPTS] at hk ⊢; omega))

/-- Witness for `wait_for_ready_spec`: an endpoint that first succeeds on
the 5th attempt yields success with 5 probes and 4 sleeps. -/
theorem wait_for_ready_spec_witness :
    wait_for_ready none 31822 (fun k => k == 5) =
      ⟨Except.ok (), 5, 4⟩ :=
  (wait_for_ready_spec 31822 (fun k => k == 5) 5 (by decide) (by decide)).2.2.2.1
    (by intro k h1 h2; simp; omega) (by decide)

/-- C5: `stop` is idempotent — with no child held it succeeds as a no-op
on the `None`/`None` state, and with a child held and a successful kill it
succeeds with both fields cleared (the embedding returns at once after
issuing the kill; no wait for process exit is modelled). -/
theorem stop_spec (st : SidecarSt) (killErr : Option String) (c : Nat) :
    (st.child = none → st.port = none →
      stop st killErr = (⟨none, none⟩, Except.ok ())) ∧
    (st.child = some c → stop st none = (⟨none, none⟩, Except.ok ())) := by
  obtain ⟨ch, po⟩ := st
  constructor
  · intro h hp
    change ch = none at h
    change po = none at hp
    subst h; subst hp
    rfl
  · intro h
    change ch = some c at h
    subst h
    rfl

/-- Witness for `stop_spec`: the no-op case and the successful-kill case
at concrete states. -/
theorem stop_spec_witness :
    stop ⟨none, none⟩ none = ((⟨none, none⟩ : SidecarSt), Except.ok ()) ∧
    stop ⟨some 1, some 31822⟩ none = ((⟨none, none⟩ : SidecarSt), Except.ok ()) :=
  ⟨(stop_spec ⟨none, none⟩ none 1).1 rfl rfl,
   (stop_spec ⟨some 1, some 31822⟩ none 1).2 rfl⟩

/-- C6 counterexample: when the kill signal fails, `stop` returns the
error and the child is cleared, but the port is NOT cleared — the claim
that both fields are `None` after a failing `stop` is false. -/
theorem stop_failed_counterexample :
    (stop ⟨some 1, some 31822⟩ (some "kill: No such process")).2 =
      Except.error "kill: No such process" ∧
    (stop ⟨some 1, some 31822⟩ (some "kill: No such process")).1.child = none ∧
    ¬ (stop ⟨some 1, some 31822⟩ (some "kill: No such process")).1.port = none := by
  refine ⟨rfl, rfl, ?_⟩
  intro h
  exact Option.noConfusion h

/-- C6 amended: when a child is held and kill delivery fails, `stop`
returns the kill error with the child cleared but the port left
unchanged (the early error return skips the port-clearing line). -/
theorem stop_failed_clears_child_only (st : SidecarSt) (c : Nat) (e : String)
    (h : st.child = some c) :
    stop st (some e) = (⟨none, st.port⟩, Except.error e) := by
  simp [stop, h]

/-- Witness for `stop_failed_clears_child_only` at a concrete state. -/
theorem stop_failed_clears_child_only_witness :
    stop ⟨some 1, some 31822⟩ (some "boom") =
      ((⟨none, some 31822⟩ : SidecarSt), Except.error "boom") :=
  stop_failed_clears_child_only ⟨some 1, some 31822⟩ 1 "boom" rfl

/-- C7: on every branch of `start` reached after the child was spawned
(port timeout, closed channel, health exhaustion — and also success), the
stored child handle is `some` and stays stored; a later `start` leaves
the state untouched and only an explicit `stop` returns it to idle. -/
theorem start_failure_after_spawn_keeps_child (st : SidecarSt) (env : StartEnv)
    (hc : st.child = none)
    (h1 : env.resourceDirErr = none) (h2 : env.resourceExists = true)
    (h3 : env.sidecarCmdErr = none) (h4 : env.pathEncodeOk = true)
    (h5 : env.spawnErr = none) :
    (start st env).1.child = some env.newChild ∧
    (∀ env2, (start (start st env).1 env2).1 = (start st env).1) ∧
    (stop (start st env).1 none).1 = ⟨none, none⟩ := by
  have hchild := start_spawned_child st env hc h1 h2 h3 h4 h5
  refine ⟨hchild, ?_, ?_⟩
  · intro env2
    rw [start_of_running _ env2 env.newChild hchild]
  · generalize hG : (start st env).1 = st2 at hchild
    obtain ⟨ch, po⟩ := st2
    change ch = some env.newChild at hchild
    subst hchild
    rfl

/-- Witness for `start_failure_after_spawn_keeps_child`: `envC2` makes
every health probe fail, so this `start` fails after spawning, yet the
child handle is retained until the explicit `stop`. -/
theorem start_failure_after_spawn_keeps_child_witness :
    (start ⟨none, none⟩ envC2).1.child = some 1 ∧
    (stop (start ⟨none, none⟩ envC2).1 none).1 = (⟨none, none⟩ : SidecarSt) :=
  ⟨(start_failure_after_spawn_keeps_child ⟨none, none⟩ envC2
      rfl rfl rfl rfl rfl rfl).1,
   (start_failure_after_spawn_keeps_child ⟨none, none⟩ envC2
      rfl rfl rfl rfl rfl rfl).2.2⟩

/-- C8: when the one-shot port wait times out (no valid sentinel line
within `PORT_PARSE_TIMEOUT_MS` = 10000 ms), `start` from the idle state
fails with the timeout error and `get_port` still returns `none`. -/
theorem start_discovery_timeout (env : StartEnv)
    (h1 : env.resourceDirErr = none) (h2 : env.resourceExists = true)
    (h3 : env.sidecarCmdErr = none) (h4 : env.pathEncodeOk = true)
    (h5 : env.spawnErr = none) (ht : env.portTimedOut = true) :
    (start ⟨none, none⟩ env).2 =
      Except.error "Timeout waiting for server to report port" ∧
    get_port (start ⟨none, none⟩ env).1 = none ∧
    PORT_PARSE_TIMEOUT_MS = 10000 := by
  simp only [start, startFull, h1, h2, h3, h4, h5, awaitPort, ht]
  exact ⟨rfl, rfl, rfl⟩

/-- Witness for `start_discovery_timeout` at a concrete environment whose
10 s discovery wait expires. -/
theorem start_discovery_timeout_witness :
    (start ⟨none, none⟩ { envC2 with portTimedOut := true }).2 =
      Except.error "Timeout waiting for server to report port" ∧
    get_port (start ⟨none, none⟩ { envC2 with portTimedOut := true }).1 = none :=
  ⟨(start_discovery_timeout { envC2 with portTimedOut := true }
      rfl rfl rfl rfl rfl rfl).1,
   (start_discovery_timeout { envC2 with portTimedOut := true }
      rfl rfl rfl rfl rfl rfl).2.1⟩

/-- C9: `stop` takes the child handle out of shared state before
attempting the kill, so after any `stop` — kill failure included — the
child field is `none`, and a subsequent `start` (with the resource
present and the spawn succeeding) spawns a fresh child. -/
theorem stop_removes_child_before_kill (st : SidecarSt) (killErr : Option String)
    (env : StartEnv)
    (h1 : env.resourceDirErr = none) (h2 : env.resourceExists = true)
    (h3 : env.sidecarCmdErr = none) (h4 : env.pathEncodeOk = true)
    (h5 : env.spawnErr = none) :
    (stop st killErr).1.child = none ∧
    (start (stop st killErr).1 env).1.child = some env.newChild := by
  have hc : (stop st killErr).1.child = none := by
    cases h : st.child <;> cases killErr <;> simp [stop, h]
  exact ⟨hc, start_spawned_child _ env hc h1 h2 h3 h4 h5⟩

/-- Witness for `stop_removes_child_before_kill`: after a failing `stop`
the child is gone and a new `start` stores the fresh handle. -/
theorem stop_removes_child_before_kill_witness :
    (stop ⟨some 7, some 31822⟩ (some "boom")).1.child = none ∧
    (start (stop ⟨some 7, some 31822⟩ (some "boom")).1 envC2).1.child = some 1 :=
  ⟨(stop_removes_child_before_kill ⟨some 7, some 31822⟩ (some "boom") envC2
      rfl rfl rfl rfl rfl).1,
   (stop_removes_child_before_kill ⟨some 7, some 31822⟩ (some "boom") envC2
      rfl rfl rfl rfl rfl).2⟩

/-- C2 counterexample: a reachable state in which the port is `some`
while no health check has ever succeeded — and the child is even `none`.
Run: `start` with a valid port announcement but failing health probes
(port stored before the poll), then `stop` whose kill fails (child taken,
port left behind).  This falsifies invariant I1 as claimed. -/
theorem port_without_health_counterexample :
    ¬ (∀ g : GState, Reachable g → g.sc.port.isSome = true →
        g.sc.child.isSome = true ∧ g.healthOk = true) := by
  intro h
  have hr : Reachable (gStop (gStart ⟨⟨none, none⟩, false⟩ envC2) (some "boom")) :=
    Reachable.stopStep _ _ (Reachable.startStep _ _ Reachable.init)
  have h2 := h _ hr (by decide)
  exact absurd h2.1 (by decide)

/-- C2 amended: a stored port always comes from a successful discovery —
if `start` turns the port from `none` into `some p`, then the one-shot
wait did not time out and the reader discovered exactly `p`.  Neither a
held child nor a successful health check is implied: the port is stored
before the health poll runs, and a failed `stop` clears the child while
leaving the port. -/
theorem port_only_after_discovery (st : SidecarSt) (env : StartEnv) (p : Nat)
    (h0 : st.port = none) (h1 : (start st env).1.port = some p) :
    env.portTimedOut = false ∧ discoverPort env.events = some p := by
  cases hc : st.child with
  | some c =>
    rw [start_of_running st env c hc] at h1
    simp [h0] at h1
  | none =>
    cases hrd : env.resourceDirErr with
    | some e => simp [start, startFull, hc, hrd, h0] at h1
    | none =>
      cases hre : env.resourceExists with
      | false => simp [start, startFull, hc, hrd, hre, h0] at h1
      | true =>
        cases hsc : env.sidecarCmdErr with
        | some e => simp [start, startFull, hc, hrd, hre, hsc, h0] at h1
        | none =>
          cases hpe : env.pathEncodeOk with
          | false => simp [start, startFull, hc, hrd, hre, hsc, hpe, h0] at h1
          | true =>
            cases hsp : env.spawnErr with
            | some e => simp [start, startFull, hc, hrd, hre, hsc, hpe, hsp, h0] at h1
            | none =>
              simp only [start, startFull, hc, hrd, hre, hsc, hpe, hsp] at h1
              cases ht : env.portTimedOut with
              | true => simp [awaitPort, ht, h0] at h1
              | false =>
                cases hd : discoverPort env.events with
                | none => simp [awaitPort, ht, hd, h0] at h1
                | some q =>
                  simp only [awaitPort, ht, hd] at h1
                  cases hwr : (wait_for_ready env.clientBuildErr q env.health).result with
                  | error e =>
                    simp [hwr] at h1
                    exact ⟨rfl, by rw [h1]⟩
                  | ok u =>
                    simp [hwr] at h1
                    exact ⟨rfl, by rw [h1]⟩

/-- Witness for `port_only_after_discovery`: under `envC2` the port
becomes `some 31822` even though every health probe fails, and indeed
discovery produced 31822 without a timeout. -/
theorem port_only_after_discovery_witness :
    envC2.portTimedOut = false ∧ discoverPort envC2.events = some 31822 :=
  port_only_after_discovery ⟨none, none⟩ envC2 31822 rfl (by decide)

/-- Decomposition of a list into its right-trimmed part and the trailing
whitespace. -/
theorem trimRight_decomp (l : List Char) :
    trimRight l ++ (l.reverse.takeWhile Char.isWhitespace).reverse = l := by
  unfold trimRight
  rw [← List.reverse_append, List.takeWhile_append_dropWhile, List.reverse_reverse]

/-- If the right-trimmed remainder starts with a non-whitespace character,
the full trim of the original list equals its right trim. -/
theorem trimChars_of_trimRight (rest : List Char) (d : Char) (core : List Char)
    (hcore : trimRight rest = d :: core) (hd : d.isWhitespace = false) :
    trimChars rest = d :: core := by
  have hdecomp : (d :: core) ++ (rest.reverse.takeWhile Char.isWhitespace).reverse
      = rest := by
    rw [← hcore]; exact trimRight_decomp rest
  have h1 : rest.dropWhile Char.isWhitespace = rest := by
    conv_lhs => rw [← hdecomp]
    conv_rhs => rw [← hdecomp]
    rw [List.cons_append, List.dropWhile_cons, hd]
    simp
  unfold trimChars
  rw [h1, hcore]

/-- Every line accepted by the spec's exact sentinel form is accepted by
the code's matcher, with the same value. -/
theorem spec_match_subset (line : List Char) (p : Nat)
    (h : specSentinelMatch line = some p) : parseSentinel line = some p := by
  unfold specSentinelMatch at h
  by_cases hk : hasKey sentinelKey line = true
  case neg =>
    rw [if_neg hk] at h
    exact absurd h (by simp)
  case pos =>
    rw [if_pos hk] at h
    unfold parseSentinel
    rw [if_pos hk]
    revert h
    unfold specDigitsValue
    cases hcore : trimRight (line.drop sentinelKey.length) with
    | nil => intro h; simp at h
    | cons d core =>
      intro h
      by_cases hdig : (d :: core).all Char.isDigit = true
      case neg =>
        rw [if_neg (by simp), if_neg hdig] at h
        exact absurd h (by simp)
      case pos =>
        have hd : d.isDigit = true := by
          simpa using List.all_eq_true.mp hdig d (by simp)
        rw [trimChars_of_trimRight _ _ _ hcore (isDigit_not_ws d hd)]
        rw [if_neg (by simp), if_pos hdig] at h
        unfold parseU16
        simp only [if_neg (isDigit_ne_plus d hd)]
        rw [if_neg (by simp), if_pos hdig]
        exact h

/-- C10: the code's matcher trims the remainder on both sides, so a line
with whitespace between `=` and the digits is accepted with the same
port; the spec's exact digits-then-trailing-whitespace form rejects that
line while everything it accepts the code also accepts — the code accepts
strictly more lines. -/
theorem sentinel_trims_both_sides :
    parseSentinel "SANDCASTLE_SERVER_PORT= 31822".toList = some 31822 ∧
    specSentinelMatch "SANDCASTLE_SERVER_PORT= 31822".toList = none ∧
    (∀ line p, specSentinelMatch line = some p → parseSentinel line = some p) := by
  exact ⟨by decide, by decide, spec_match_subset⟩

end Sidecar
